import Mathlib

/-!
Shallow embedding of the customer-request-tracking backend.

The definitions below translate the JavaScript source:
  backend/src/models/request.js              (status enums, document types)
  backend/src/repositories/documentRepository.js
  backend/src/repositories/requestRepository.js
  backend/src/services/documentService.js    (uploadDocument, submitRequest)
  backend/src/services/requestService.js     (getRequestDetails, updateRequest,
                                              markReminderConfirmed, reopenRequest,
                                              reviewRequest)
  jobs: processExpiry (SLA expiry sweeper), processReminders (reminder sweeper)
  frontend CustomerPortal: the client-side canSubmit gate.

Timestamps are modelled as integer milliseconds (JS Date arithmetic at whole
millisecond granularity; the float divisions by 3600000 in hoursBetween are
exact at this granularity for the comparisons the code performs).
Each service operation is modelled per-case: the Firestore lookup of the one
request the operation touches is replaced by passing the request state
directly, and the document subcollection for that request is carried as a
per-slot field on the state.  Operations return the pair of the thrown/ok
outcome and the resulting persisted state; the boolean `sinkOk` parameter
models whether the audit sink (auditLogRepository.createAuditLog) succeeds,
so that the position of the audit write relative to the state write is
observable.
-/

namespace CRT

/-- REQUEST_STATUS from backend/src/models/request.js. -/
inductive RequestStatus
  | OPEN
  | IN_PROGRESS
  | SUBMITTED
  | COMPLETED
  | EXPIRED
  deriving DecidableEq, Repr

/-- REVIEW_STATUS from backend/src/models/request.js. -/
inductive ReviewStatus
  | PENDING
  | APPROVED
  | REJECTED
  deriving DecidableEq, Repr

/-- DOCUMENT_TYPES from backend/src/models/request.js (the four required kinds). -/
inductive DocumentType
  | ID
  | LICENCE
  | PROOF_OF_ADDRESS
  | BANK_STATEMENT
  deriving DecidableEq, Repr

/-- Object.values(DOCUMENT_TYPES), in declaration order. -/
def requiredTypes : List DocumentType :=
  [DocumentType.ID, DocumentType.LICENCE,
   DocumentType.PROOF_OF_ADDRESS, DocumentType.BANK_STATEMENT]

/-- The state of one request document together with its per-slot uploads
(the `documents` collection restricted to this request: each slot holds at
most one current artifact, whose value is its uploadedAt timestamp). -/
structure Request where
  status : RequestStatus
  reviewStatus : ReviewStatus
  rejectedDocumentTypes : List DocumentType
  completionPercent : Nat
  needsReminderLevel : Nat
  lastReminderAt : Option Int
  createdAt : Int
  updatedAt : Int
  expiredAt : Option Int
  reviewComment : Option String
  reviewedBy : Option String
  reviewedAt : Option Int
  notes : String
  docs : DocumentType → Option Int

/-- Milliseconds in the hoursBetween comparisons: Math.abs(date2 - date1). -/
def msBetween (date1 date2 : Int) : Nat := (date2 - date1).natAbs

/-- SLA_HOURS = 144 hours, in milliseconds. -/
def slaMs : Nat := 144 * 3600000

/-- First reminder threshold: 24 hours, in milliseconds. -/
def firstReminderMs : Nat := 24 * 3600000

/-- Second reminder threshold: 48 hours, in milliseconds. -/
def secondReminderMs : Nat := 48 * 3600000

/-- getDocumentUploadStatus from documentRepository.js: per required type,
whether a document of that type exists. -/
def getDocumentUploadStatus (docs : DocumentType → Option Int) : DocumentType → Bool :=
  fun t => (docs t).isSome

/-- The uploadedCount of calculateCompletionPercent: how many required types
have a document. -/
def uploadedCount (docs : DocumentType → Option Int) : Nat :=
  (requiredTypes.filter (fun t => (docs t).isSome)).length

/-- Math.round of a nonnegative rational num/den (round half up =
floor (num/den + 1/2), cleared of denominators). -/
def jsRound (num den : Nat) : Nat := (2 * num + den) / (2 * den)

/-- calculateCompletionPercent from documentRepository.js:
Math.round((uploadedCount / requiredTypes.length) * 100). -/
def calculateCompletionPercent (docs : DocumentType → Option Int) : Nat :=
  jsRound (uploadedCount docs * 100) requiredTypes.length

/-- areAllDocumentsUploaded from documentRepository.js. -/
def areAllDocumentsUploaded (docs : DocumentType → Option Int) : Bool :=
  requiredTypes.all (fun t => (docs t).isSome)

/-- Outcome of a service operation: the thrown-or-returned result, paired
with the state as persisted when the operation finished (JS exceptions do
not roll back repository writes that already happened). -/
abbrev OpResult := Except String Unit × Request

/-- Boolean success test on an operation outcome. -/
def opOk (o : OpResult) : Bool :=
  match o.1 with
  | Except.ok _ => true
  | Except.error _ => false

/-- uploadDocument from documentService.js, for an existing request.
Guards, then replace the slot's document (delete old record, create new one
with uploadedAt = now), recompute completionPercent and write it, then the
audit log (which is the last step, after the state writes). -/
def uploadDocument (now : Int) (docType : DocumentType) (sinkOk : Bool)
    (r : Request) : OpResult :=
  if r.status = RequestStatus.EXPIRED then
    (Except.error "Cannot upload documents to expired request", r)
  else if r.status = RequestStatus.COMPLETED then
    (Except.error "Cannot upload documents to completed request", r)
  else if r.reviewStatus = ReviewStatus.APPROVED then
    (Except.error "Cannot upload documents to approved request", r)
  else
    let docs' := fun t => if t = docType then some now else r.docs t
    let r' := { r with
      docs := docs'
      completionPercent := calculateCompletionPercent docs'
      updatedAt := now }
    if sinkOk then (Except.ok (), r')
    else (Except.error "audit sink unavailable", r')

/-- submitRequest from documentService.js.  Guards (EXPIRED, COMPLETED,
reviewStatus APPROVED, all documents uploaded), then one state write
(status SUBMITTED, completionPercent 100, reviewStatus PENDING), then the
audit log. -/
def submitRequest (now : Int) (sinkOk : Bool) (r : Request) : OpResult :=
  if r.status = RequestStatus.EXPIRED then
    (Except.error "Cannot submit expired request", r)
  else if r.status = RequestStatus.COMPLETED then
    (Except.error "Cannot submit completed request", r)
  else if r.reviewStatus = ReviewStatus.APPROVED then
    (Except.error "Cannot submit approved request", r)
  else if ¬ areAllDocumentsUploaded r.docs then
    (Except.error "All required documents must be uploaded before submission", r)
  else
    let r' := { r with
      status := RequestStatus.SUBMITTED
      completionPercent := 100
      reviewStatus := ReviewStatus.PENDING
      updatedAt := now }
    if sinkOk then (Except.ok (), r')
    else (Except.error "audit sink unavailable", r')

/-- Final write of updateRequest in requestService.js: if updateData is
empty the current request is returned with no write, otherwise the changed
fields are written (the repository also sets updatedAt = now). -/
def updateRequestApply (now : Int) (r : Request)
    (statusChange : Option RequestStatus) (notesChange : Option String) : OpResult :=
  match statusChange, notesChange with
  | none, none => (Except.ok (), r)
  | _, _ =>
      (Except.ok (), { r with
        status := statusChange.getD r.status
        notes := notesChange.getD r.notes
        updatedAt := now })

/-- Notes branch of updateRequest in requestService.js: when a different
notes value is supplied, the NOTES_UPDATED audit log is created before the
final repository write. -/
def updateRequestNotes (notesUpdate : Option String) (now : Int) (sinkOk : Bool)
    (r : Request) (statusChange : Option RequestStatus) : OpResult :=
  match notesUpdate with
  | some n =>
      if n ≠ r.notes then
        if sinkOk then updateRequestApply now r statusChange (some n)
        else (Except.error "audit sink unavailable", r)
      else updateRequestApply now r statusChange none
  | none => updateRequestApply now r statusChange none

/-- updateRequest from requestService.js, for an existing request.  When
a different status is supplied: the only transition guard in the code is
that an EXPIRED request may only be set to OPEN; the STATUS_CHANGED audit
log is created before the repository write. -/
def updateRequest (statusUpdate : Option RequestStatus) (notesUpdate : Option String)
    (now : Int) (sinkOk : Bool) (r : Request) : OpResult :=
  match statusUpdate with
  | some ns =>
      if ns ≠ r.status then
        if r.status = RequestStatus.EXPIRED ∧ ns ≠ RequestStatus.OPEN then
          (Except.error "Expired requests can only be reopened (set to OPEN)", r)
        else if sinkOk then updateRequestNotes notesUpdate now sinkOk r (some ns)
        else (Except.error "audit sink unavailable", r)
      else updateRequestNotes notesUpdate now sinkOk r none
  | none => updateRequestNotes notesUpdate now sinkOk r none

/-- markReminderConfirmed from requestService.js: rejects only EXPIRED,
then writes needsReminderLevel = 0 and lastReminderAt = now, then the
audit log. -/
def markReminderConfirmed (now : Int) (sinkOk : Bool) (r : Request) : OpResult :=
  if r.status = RequestStatus.EXPIRED then
    (Except.error "Cannot confirm reminder for expired request", r)
  else
    let r' := { r with
      needsReminderLevel := 0
      lastReminderAt := some now
      updatedAt := now }
    if sinkOk then (Except.ok (), r')
    else (Except.error "audit sink unavailable", r')

/-- reopenRequest from requestService.js. -/
def reopenRequest (now : Int) (sinkOk : Bool) (r : Request) : OpResult :=
  if r.status ≠ RequestStatus.EXPIRED then
    (Except.error "Can only reopen expired requests", r)
  else
    let r' := { r with
      status := RequestStatus.OPEN
      expiredAt := none
      needsReminderLevel := 0
      lastReminderAt := none
      updatedAt := now }
    if sinkOk then (Except.ok (), r')
    else (Except.error "audit sink unavailable", r')

/-- Review decisions; the controller rejects anything other than APPROVE
or REJECT before the service is reached. -/
inductive ReviewDecision
  | APPROVE
  | REJECT
  deriving DecidableEq, Repr

/-- reviewRequest from requestService.js (the missing comment of the
controller is the empty string, matching the falsy test in the code). -/
def reviewRequest (decision : ReviewDecision) (comment : String) (actorId : String)
    (rejectedDocumentTypes : List DocumentType) (now : Int) (sinkOk : Bool)
    (r : Request) : OpResult :=
  if r.status ≠ RequestStatus.SUBMITTED then
    (Except.error "Can only review submitted requests", r)
  else if decision = ReviewDecision.REJECT ∧ comment = "" then
    (Except.error "Rejection comment is required", r)
  else if decision = ReviewDecision.REJECT ∧ rejectedDocumentTypes = [] then
    (Except.error "At least one document must be selected for the customer to re-upload", r)
  else
    let reviewStatus := if decision = ReviewDecision.APPROVE
      then ReviewStatus.APPROVED else ReviewStatus.REJECTED
    let base := { r with
      reviewStatus := reviewStatus
      reviewComment := if comment = "" then none else some comment
      reviewedBy := some actorId
      reviewedAt := some now
      updatedAt := now }
    let r' := if decision = ReviewDecision.APPROVE then
        { base with
          status := RequestStatus.COMPLETED
          rejectedDocumentTypes := [] }
      else
        { base with
          status := RequestStatus.IN_PROGRESS
          rejectedDocumentTypes := rejectedDocumentTypes }
    if sinkOk then (Except.ok (), r')
    else (Except.error "audit sink unavailable", r')

/-- Result shape of getRequestDetails in requestService.js. -/
structure RequestDetails where
  request : Request
  documents : List (DocumentType × Int)
  documentStatus : DocumentType → Bool

/-- getDocumentsByRequestId, restricted to the modelled request: the list
of existing slot documents with their uploadedAt timestamps. -/
def allDocumentsList (docs : DocumentType → Option Int) : List (DocumentType × Int) :=
  requiredTypes.filterMap (fun t => (docs t).map (fun ts => (t, ts)))

/-- getRequestDetails from requestService.js: the document files are
returned only when status is SUBMITTED or COMPLETED or reviewStatus is
APPROVED or REJECTED; the per-slot upload-status flags are always
returned. -/
def getRequestDetails (r : Request) : RequestDetails :=
  let showDocuments :=
    (r.status = RequestStatus.SUBMITTED ∨ r.status = RequestStatus.COMPLETED) ∨
    (r.reviewStatus = ReviewStatus.APPROVED ∨ r.reviewStatus = ReviewStatus.REJECTED)
  { request := r
    documents := if showDocuments then allDocumentsList r.docs else []
    documentStatus := getDocumentUploadStatus r.docs }

/-- One case of the SLA expiry sweep (processExpiry): the repository query
excludes COMPLETED, the loop skips EXPIRED, and a case at least 144 hours
old (Math.abs distance) is written to EXPIRED with expiredAt = now. -/
def expireStep (now : Int) (r : Request) : Request :=
  if r.status = RequestStatus.COMPLETED then r
  else if r.status = RequestStatus.EXPIRED then r
  else if slaMs ≤ msBetween r.createdAt now then
    { r with
      status := RequestStatus.EXPIRED
      expiredAt := some now
      updatedAt := now }
  else r

/-- processExpiry over the whole store: each case is handled independently. -/
def processExpiry (now : Int) (rs : List Request) : List Request :=
  rs.map (expireStep now)

/-- One case of the reminder sweep (processReminders): the repository query
excludes COMPLETED and EXPIRED, then the eligible-status check, then the
level 0 to 1 escalation at 24 hours since creation, else the level 1 to 2
escalation at 48 hours since lastReminderAt (when set). -/
def reminderStep (now : Int) (r : Request) : Request :=
  if r.status = RequestStatus.COMPLETED ∨ r.status = RequestStatus.EXPIRED then r
  else if ¬ (r.status = RequestStatus.OPEN ∨ r.status = RequestStatus.IN_PROGRESS ∨
             r.status = RequestStatus.SUBMITTED) then r
  else if r.needsReminderLevel = 0 then
    if firstReminderMs ≤ msBetween r.createdAt now then
      { r with needsReminderLevel := 1, updatedAt := now }
    else r
  else if r.needsReminderLevel = 1 then
    match r.lastReminderAt with
    | some t =>
        if secondReminderMs ≤ msBetween t now then
          { r with needsReminderLevel := 2, updatedAt := now }
        else r
    | none => r
  else r

/-- processReminders over the whole store. -/
def processReminders (now : Int) (rs : List Request) : List Request :=
  rs.map (reminderStep now)

/-- Client-side resubmission gate of the customer portal (CustomerPortal):
after a rejection every flagged document type must be in the session's
recentlyUploaded set. -/
def allRejectedDocsReuploaded (reviewStatus : ReviewStatus)
    (rejectedDocumentTypes recentlyUploaded : List DocumentType) : Bool :=
  decide (reviewStatus ≠ ReviewStatus.REJECTED) ||
    rejectedDocumentTypes.all (fun t => recentlyUploaded.contains t)

/-- canSubmit of the customer portal: all documents uploaded and, after a
rejection, all flagged types re-uploaded in this session. -/
def canSubmit (documentStatus : DocumentType → Bool) (reviewStatus : ReviewStatus)
    (rejectedDocumentTypes recentlyUploaded : List DocumentType) : Bool :=
  requiredTypes.all documentStatus &&
    allRejectedDocsReuploaded reviewStatus rejectedDocumentTypes recentlyUploaded

/-! Concrete states used by counterexamples and witnesses. -/

/-- A freshly created request, as produced by createRequest in
models/request.js (status OPEN, reviewStatus PENDING, no documents). -/
def baseRequest : Request where
  status := RequestStatus.OPEN
  reviewStatus := ReviewStatus.PENDING
  rejectedDocumentTypes := []
  completionPercent := 0
  needsReminderLevel := 0
  lastReminderAt := none
  createdAt := 0
  updatedAt := 0
  expiredAt := none
  reviewComment := none
  reviewedBy := none
  reviewedAt := none
  notes := ""
  docs := fun _ => none

/-- Intermediate states of the happy-path upload progression. -/
def c9Step1 : Request := (uploadDocument 10 DocumentType.ID true baseRequest).2

def c9Step2 : Request := (uploadDocument 11 DocumentType.LICENCE true c9Step1).2

def c9Step3 : Request := (uploadDocument 12 DocumentType.PROOF_OF_ADDRESS true c9Step2).2

def c9Step4 : Request := (uploadDocument 13 DocumentType.BANK_STATEMENT true c9Step3).2

/-- C9: after every document mutation the stored completionPercent is the
round-half-up of 100 * occupiedSlots / totalRequiredSlots.  Conjunct one
characterises jsRound as round half up for an arbitrary positive total
(q = round(num/den) iff q ≤ num/den + 1/2 < q + 1, denominators cleared);
conjunct two says the state written by uploadDocument carries exactly that
rounding of the occupied-slot count over the 4 required kinds and lies in
{0, 25, 50, 75, 100}; conjunct three is the four-step progression
25, 50, 75, 100 as the slots are filled one by one. -/
theorem completion_percent_round_half_up (now : Int) (docType : DocumentType)
    (r : Request)
    (h1 : r.status ≠ RequestStatus.EXPIRED)
    (h2 : r.status ≠ RequestStatus.COMPLETED)
    (h3 : r.reviewStatus ≠ ReviewStatus.APPROVED) :
    (∀ num den q : Nat, 0 < den →
        (jsRound num den = q ↔
          2 * den * q ≤ 2 * num + den ∧ 2 * num + den < 2 * den * (q + 1))) ∧
    ((uploadDocument now docType true r).2.completionPercent
        = jsRound (100 * uploadedCount (uploadDocument now docType true r).2.docs)
            requiredTypes.length ∧
      (uploadDocument now docType true r).2.completionPercent
        ∈ ([0, 25, 50, 75, 100] : List Nat)) ∧
    (c9Step1.completionPercent = 25 ∧ c9Step2.completionPercent = 50 ∧
      c9Step3.completionPercent = 75 ∧ c9Step4.completionPercent = 100) := by
  have hu : (uploadDocument now docType true r).2 =
      { r with
        docs := fun t => if t = docType then some now else r.docs t
        completionPercent :=
          calculateCompletionPercent (fun t => if t = docType then some now else r.docs t)
        updatedAt := now } := by
    unfold uploadDocument
    rw [if_neg h1, if_neg h2, if_neg h3]
    rfl
  refine ⟨?_, ⟨?_, ?_⟩, by decide⟩
  · intro num den q hden
    constructor
    · rintro rfl
      have hdm := Nat.div_add_mod (2 * num + den) (2 * den)
      have hml := Nat.mod_lt (2 * num + den) (y := 2 * den) (by omega)
      unfold jsRound
      constructor
      · conv_rhs => rw [← hdm]
        exact Nat.le_add_right _ _
      · calc 2 * num + den
            = 2 * den * ((2 * num + den) / (2 * den)) + (2 * num + den) % (2 * den) :=
              hdm.symm
          _ < 2 * den * ((2 * num + den) / (2 * den)) + 2 * den :=
              Nat.add_lt_add_left hml _
          _ = 2 * den * ((2 * num + den) / (2 * den) + 1) := by ring
    · rintro ⟨hlo, hhi⟩
      unfold jsRound
      refine Nat.div_eq_of_lt_le ?_ ?_
      · rw [Nat.mul_comm (2 * den) q] at hlo
        exact hlo
      · rw [Nat.mul_comm (2 * den) (q + 1)] at hhi
        exact hhi
  · rw [hu]
    exact congrArg (fun k => jsRound k requiredTypes.length)
      (Nat.mul_comm (uploadedCount fun t => if t = docType then some now else r.docs t) 100)
  · rw [hu]
    have hk : uploadedCount (fun t => if t = docType then some now else r.docs t) ≤ 4 := by
      have := List.length_filter_le
        (fun t => ((if t = docType then some now else r.docs t) : Option Int).isSome)
        requiredTypes
      simpa [uploadedCount, requiredTypes] using this
    show calculateCompletionPercent (fun t => if t = docType then some now else r.docs t)
      ∈ ([0, 25, 50, 75, 100] : List Nat)
    unfold calculateCompletionPercent
    rcases (by omega :
        uploadedCount (fun t => if t = docType then some now else r.docs t) = 0 ∨
        uploadedCount (fun t => if t = docType then some now else r.docs t) = 1 ∨
        uploadedCount (fun t => if t = docType then some now else r.docs t) = 2 ∨
        uploadedCount (fun t => if t = docType then some now else r.docs t) = 3 ∨
        uploadedCount (fun t => if t = docType then some now else r.docs t) = 4) with
      h | h | h | h | h <;> rw [h] <;> decide

/-- C9 witness: the theorem applied to a concrete in-progress request. -/
theorem completion_percent_round_half_up_witness :
    (∀ num den q : Nat, 0 < den →
        (jsRound num den = q ↔
          2 * den * q ≤ 2 * num + den ∧ 2 * num + den < 2 * den * (q + 1))) ∧
    ((uploadDocument 10 DocumentType.ID true baseRequest).2.completionPercent
        = jsRound
            (100 * uploadedCount (uploadDocument 10 DocumentType.ID true baseRequest).2.docs)
            requiredTypes.length ∧
      (uploadDocument 10 DocumentType.ID true baseRequest).2.completionPercent
        ∈ ([0, 25, 50, 75, 100] : List Nat)) ∧
    (c9Step1.completionPercent = 25 ∧ c9Step2.completionPercent = 50 ∧
      c9Step3.completionPercent = 75 ∧ c9Step4.completionPercent = 100) :=
  completion_percent_round_half_up 10 DocumentType.ID baseRequest
    (by decide) (by decide) (by decide)

/-- C10: for an existing case whose status is neither SUBMITTED nor
COMPLETED and whose reviewStatus is neither APPROVED nor REJECTED,
getRequestDetails returns an empty documents list while still returning
the per-slot upload-status flags. -/
theorem request_details_hides_documents (r : Request)
    (h1 : r.status ≠ RequestStatus.SUBMITTED)
    (h2 : r.status ≠ RequestStatus.COMPLETED)
    (h3 : r.reviewStatus ≠ ReviewStatus.APPROVED)
    (h4 : r.reviewStatus ≠ ReviewStatus.REJECTED) :
    (getRequestDetails r).documents = [] ∧
    (getRequestDetails r).documentStatus = getDocumentUploadStatus r.docs := by
  have hshow : ¬ ((r.status = RequestStatus.SUBMITTED ∨ r.status = RequestStatus.COMPLETED) ∨
      (r.reviewStatus = ReviewStatus.APPROVED ∨ r.reviewStatus = ReviewStatus.REJECTED)) := by
    push_neg
    exact ⟨⟨h1, h2⟩, h3, h4⟩
  unfold getRequestDetails
  simp [hshow]

/-- Concrete in-progress request with one uploaded document. -/
def c10InProgress : Request :=
  { baseRequest with
    status := RequestStatus.IN_PROGRESS
    docs := fun t => if t = DocumentType.ID then some 5 else none }

/-- C10 witness: an IN_PROGRESS, review-PENDING case with one upload. -/
theorem request_details_hides_documents_witness :
    (getRequestDetails c10InProgress).documents = [] ∧
    (getRequestDetails c10InProgress).documentStatus = getDocumentUploadStatus c10InProgress.docs :=
  request_details_hides_documents c10InProgress
    (by decide) (by decide) (by decide) (by decide)

/-- A submitted request with every document uploaded. -/
def c7Submitted : Request :=
  { baseRequest with
    status := RequestStatus.SUBMITTED
    completionPercent := 100
    docs := fun _ => some 1 }

/-- C7: reviewRequest succeeds only on a SUBMITTED case; APPROVE sets
COMPLETED / APPROVED / empty rejectedDocumentTypes / reviewedBy/At;
REJECT requires a non-empty comment and non-empty slot list and sets
IN_PROGRESS / REJECTED / the given slots / reviewedBy/At; every guard
failure returns the typed error with the state unchanged. -/
theorem review_request_spec (decision : ReviewDecision) (comment actorId : String)
    (slots : List DocumentType) (now : Int) (r : Request) :
    (r.status ≠ RequestStatus.SUBMITTED →
      reviewRequest decision comment actorId slots now true r =
        (Except.error "Can only review submitted requests", r)) ∧
    (r.status = RequestStatus.SUBMITTED → decision = ReviewDecision.REJECT → comment = "" →
      reviewRequest decision comment actorId slots now true r =
        (Except.error "Rejection comment is required", r)) ∧
    (r.status = RequestStatus.SUBMITTED → decision = ReviewDecision.REJECT → comment ≠ "" →
      slots = [] →
      reviewRequest decision comment actorId slots now true r =
        (Except.error "At least one document must be selected for the customer to re-upload", r)) ∧
    (r.status = RequestStatus.SUBMITTED → decision = ReviewDecision.APPROVE →
      reviewRequest decision comment actorId slots now true r =
        (Except.ok (), { r with
          status := RequestStatus.COMPLETED
          reviewStatus := ReviewStatus.APPROVED
          rejectedDocumentTypes := []
          reviewComment := if comment = "" then none else some comment
          reviewedBy := some actorId
          reviewedAt := some now
          updatedAt := now })) ∧
    (r.status = RequestStatus.SUBMITTED → decision = ReviewDecision.REJECT → comment ≠ "" →
      slots ≠ [] →
      reviewRequest decision comment actorId slots now true r =
        (Except.ok (), { r with
          status := RequestStatus.IN_PROGRESS
          reviewStatus := ReviewStatus.REJECTED
          rejectedDocumentTypes := slots
          reviewComment := some comment
          reviewedBy := some actorId
          reviewedAt := some now
          updatedAt := now })) := by
  refine ⟨?_, ?_, ?_, ?_, ?_⟩
  · intro h
    unfold reviewRequest
    rw [if_pos h]
  · intro hs hd hc
    unfold reviewRequest
    rw [if_neg (not_not_intro hs), if_pos ⟨hd, hc⟩]
  · intro hs hd hc hsl
    unfold reviewRequest
    rw [if_neg (not_not_intro hs), if_neg (fun x => hc x.2), if_pos ⟨hd, hsl⟩]
  · intro hs hd
    subst hd
    unfold reviewRequest
    rw [if_neg (not_not_intro hs)]
    by_cases hc : comment = ""
    · simp [hc]
    · simp [hc]
  · intro hs hd hc hsl
    subst hd
    unfold reviewRequest
    rw [if_neg (not_not_intro hs), if_neg (fun x => hc x.2), if_neg (fun x => hsl x.2)]
    simp [hc]

/-- C7 witness: approving a concrete submitted request. -/
theorem review_request_spec_witness :
    reviewRequest ReviewDecision.APPROVE "ok" "mgr" [] 5 true c7Submitted =
      (Except.ok (), { c7Submitted with
        status := RequestStatus.COMPLETED
        reviewStatus := ReviewStatus.APPROVED
        rejectedDocumentTypes := []
        reviewComment := some "ok"
        reviewedBy := some "mgr"
        reviewedAt := some 5
        updatedAt := 5 }) := by
  have h := (review_request_spec ReviewDecision.APPROVE "ok" "mgr" [] 5 c7Submitted).2.2.2.1
    rfl rfl
  simpa using h

/-- A completed request (approved review). -/
def c8Completed : Request :=
  { baseRequest with
    status := RequestStatus.COMPLETED
    reviewStatus := ReviewStatus.APPROVED
    completionPercent := 100
    docs := fun _ => some 1 }

/-- C8 counterexample: the claim says confirmEscalation fails on a case
whose status is COMPLETED, but markReminderConfirmed only rejects EXPIRED:
on a COMPLETED case it succeeds and writes the acknowledgement fields. -/
theorem confirm_reminder_completed_cex :
    c8Completed.status = RequestStatus.COMPLETED ∧
    opOk (markReminderConfirmed 99 true c8Completed) = true ∧
    (markReminderConfirmed 99 true c8Completed).2.needsReminderLevel = 0 ∧
    (markReminderConfirmed 99 true c8Completed).2.lastReminderAt = some 99 := by
  decide

/-- C8 amended: markReminderConfirmed sets needsReminderLevel to 0 and
lastReminderAt to now; it fails exactly when status is EXPIRED, and
succeeds on every other status, including COMPLETED. -/
theorem confirm_reminder_spec (now : Int) (r : Request) :
    (r.status = RequestStatus.EXPIRED →
      markReminderConfirmed now true r =
        (Except.error "Cannot confirm reminder for expired request", r)) ∧
    (r.status ≠ RequestStatus.EXPIRED →
      markReminderConfirmed now true r =
        (Except.ok (), { r with
          needsReminderLevel := 0
          lastReminderAt := some now
          updatedAt := now })) := by
  constructor
  · intro h
    unfold markReminderConfirmed
    rw [if_pos h]
  · intro h
    unfold markReminderConfirmed
    rw [if_neg h]
    rfl

/-- C8 witness: acknowledging a fresh OPEN request. -/
theorem confirm_reminder_spec_witness :
    markReminderConfirmed 7 true baseRequest =
      (Except.ok (), { baseRequest with
        needsReminderLevel := 0
        lastReminderAt := some 7
        updatedAt := 7 }) :=
  (confirm_reminder_spec 7 baseRequest).2 (by decide)

/-- A completed request for the status-edit counterexample. -/
def c3Completed : Request :=
  { baseRequest with
    status := RequestStatus.COMPLETED
    reviewStatus := ReviewStatus.APPROVED }

/-- C3 counterexample: the claim says a COMPLETED case cannot be
status-edited and EXPIRED can never be set by an owner edit; the code
accepts both (its only guard concerns edits of an EXPIRED case). -/
theorem status_edit_guard_cex :
    c3Completed.status = RequestStatus.COMPLETED ∧
    opOk (updateRequest (some RequestStatus.OPEN) none 10 true c3Completed) = true ∧
    (updateRequest (some RequestStatus.OPEN) none 10 true c3Completed).2.status
      = RequestStatus.OPEN ∧
    baseRequest.status = RequestStatus.OPEN ∧
    opOk (updateRequest (some RequestStatus.EXPIRED) none 10 true baseRequest) = true ∧
    (updateRequest (some RequestStatus.EXPIRED) none 10 true baseRequest).2.status
      = RequestStatus.EXPIRED := by
  decide

/-- C3 amended: for a status edit with a changed target value, the only
guard in updateRequest is that an EXPIRED case may only be set to OPEN;
every other edit is accepted unvalidated (any target, any non-EXPIRED
current status, COMPLETED included; isValidStatusTransition is never
called). -/
theorem status_edit_guard (target : RequestStatus) (now : Int) (r : Request)
    (hne : target ≠ r.status) :
    (r.status = RequestStatus.EXPIRED → target ≠ RequestStatus.OPEN →
      updateRequest (some target) none now true r =
        (Except.error "Expired requests can only be reopened (set to OPEN)", r)) ∧
    (¬ (r.status = RequestStatus.EXPIRED ∧ target ≠ RequestStatus.OPEN) →
      updateRequest (some target) none now true r =
        (Except.ok (), { r with status := target, updatedAt := now })) := by
  constructor
  · intro h1 h2
    simp only [updateRequest]
    rw [if_pos hne, if_pos ⟨h1, h2⟩]
  · intro h
    simp only [updateRequest]
    rw [if_pos hne, if_neg h]
    rfl

/-- C3 witness: a plain OPEN to IN_PROGRESS edit is accepted. -/
theorem status_edit_guard_witness :
    updateRequest (some RequestStatus.IN_PROGRESS) none 3 true baseRequest =
      (Except.ok (), { baseRequest with status := RequestStatus.IN_PROGRESS, updatedAt := 3 }) :=
  (status_edit_guard RequestStatus.IN_PROGRESS 3 baseRequest (by decide)).2 (by decide)

/-- A rejected request whose every document was uploaded strictly before
the rejection (reviewedAt = 1000, all uploads at 0). -/
def c1Rejected : Request :=
  { baseRequest with
    status := RequestStatus.IN_PROGRESS
    reviewStatus := ReviewStatus.REJECTED
    rejectedDocumentTypes := [DocumentType.ID]
    reviewComment := some "blurry"
    reviewedBy := some "agent1"
    reviewedAt := some 1000
    completionPercent := 100
    docs := fun _ => some 0 }

/-- C1 counterexample: a case with reviewStatus REJECTED, a non-empty
rejectedDocumentTypes, and every slot last uploaded strictly before the
rejection timestamp.  The claim says submit() must fail with InvalidState
until the rejected slot is re-uploaded after the rejection; the backend
submitRequest succeeds immediately. -/
theorem submit_rejection_gate_cex :
    c1Rejected.reviewStatus = ReviewStatus.REJECTED ∧
    c1Rejected.rejectedDocumentTypes = [DocumentType.ID] ∧
    c1Rejected.reviewedAt = some 1000 ∧
    (requiredTypes.all (fun t =>
        match c1Rejected.docs t, c1Rejected.reviewedAt with
        | some u, some rej => decide (u < rej)
        | _, _ => false)) = true ∧
    opOk (submitRequest 2000 true c1Rejected) = true ∧
    (submitRequest 2000 true c1Rejected).2.status = RequestStatus.SUBMITTED := by
  decide

/-- C1 amended: the backend submit() performs no rejected-slot check at
all: whenever the case is not EXPIRED, not COMPLETED, not APPROVED and all
four slots are occupied, it succeeds, regardless of rejectedDocumentTypes
or of any upload timestamps.  The re-upload gate exists only client-side:
the portal's canSubmit is false while some rejected slot is missing from
the session's recentlyUploaded set, and true once all documents are
uploaded and every rejected slot is in that set (any order, no timestamp
comparison). -/
theorem submit_rejection_gate_client_only (now : Int) (r : Request)
    (h1 : r.status ≠ RequestStatus.EXPIRED)
    (h2 : r.status ≠ RequestStatus.COMPLETED)
    (h3 : r.reviewStatus ≠ ReviewStatus.APPROVED)
    (h4 : areAllDocumentsUploaded r.docs = true) :
    (submitRequest now true r).1 = Except.ok () ∧
    (∀ (ds : DocumentType → Bool) (rejected recent : List DocumentType),
      (∃ d ∈ rejected, d ∉ recent) →
      canSubmit ds ReviewStatus.REJECTED rejected recent = false) ∧
    (∀ (ds : DocumentType → Bool) (rs : ReviewStatus) (rejected recent : List DocumentType),
      requiredTypes.all ds = true → (∀ d ∈ rejected, d ∈ recent) →
      canSubmit ds rs rejected recent = true) := by
  refine ⟨?_, ?_, ?_⟩
  · unfold submitRequest
    rw [if_neg h1, if_neg h2, if_neg h3, if_neg (not_not_intro h4)]
    rfl
  · rintro ds rejected recent ⟨d, hd, hdn⟩
    have hall : rejected.all (fun t => recent.contains t) = false := by
      rw [List.all_eq_false]
      exact ⟨d, hd, by simpa using hdn⟩
    unfold canSubmit allRejectedDocsReuploaded
    rw [hall]
    simp
  · intro ds rs rejected recent hds hsub
    unfold canSubmit allRejectedDocsReuploaded
    rw [hds]
    have hall : rejected.all (fun t => recent.contains t) = true := by
      rw [List.all_eq_true]
      intro d hd
      simpa using hsub d hd
    rw [hall]
    simp

/-- C1 witness: resubmitting the concrete rejected case, and the client
gate on its slot list. -/
theorem submit_rejection_gate_client_only_witness :
    (submitRequest 2000 true c1Rejected).1 = Except.ok () ∧
    (∀ (ds : DocumentType → Bool) (rejected recent : List DocumentType),
      (∃ d ∈ rejected, d ∉ recent) →
      canSubmit ds ReviewStatus.REJECTED rejected recent = false) ∧
    (∀ (ds : DocumentType → Bool) (rs : ReviewStatus) (rejected recent : List DocumentType),
      requiredTypes.all ds = true → (∀ d ∈ rejected, d ∈ recent) →
      canSubmit ds rs rejected recent = true) :=
  submit_rejection_gate_client_only 2000 c1Rejected
    (by decide) (by decide) (by decide) (by decide)

/-- A rejected request whose flagged documents were re-uploaded after the
rejection (reviewedAt = 1000, all uploads at 1500). -/
def c2Rejected : Request :=
  { baseRequest with
    status := RequestStatus.IN_PROGRESS
    reviewStatus := ReviewStatus.REJECTED
    rejectedDocumentTypes := [DocumentType.ID, DocumentType.LICENCE]
    reviewComment := some "fix these"
    reviewedBy := some "agent1"
    reviewedAt := some 1000
    completionPercent := 100
    docs := fun _ => some 1500 }

/-- C2 counterexample: a fully legitimate resubmission of a rejected case
succeeds and resets reviewStatus to PENDING, but rejectedDocumentTypes is
not cleared: the resulting state has reviewStatus PENDING with a non-empty
rejectedDocumentTypes, violating the claimed invariant. -/
theorem rejected_slots_not_cleared_on_submit_cex :
    opOk (submitRequest 2000 true c2Rejected) = true ∧
    (submitRequest 2000 true c2Rejected).2.reviewStatus = ReviewStatus.PENDING ∧
    (submitRequest 2000 true c2Rejected).2.rejectedDocumentTypes ≠ [] := by
  decide

/-- C2 amended: a successful submit() resets reviewStatus to PENDING but
leaves rejectedDocumentTypes exactly as it was; the set is cleared only by
review(APPROVE) (and set by review(REJECT)).  Hence after a resubmission
of a rejected case the set is non-empty while reviewStatus is PENDING. -/
theorem rejected_slots_lifecycle (now : Int) (r : Request)
    (h1 : r.status ≠ RequestStatus.EXPIRED)
    (h2 : r.status ≠ RequestStatus.COMPLETED)
    (h3 : r.reviewStatus ≠ ReviewStatus.APPROVED)
    (h4 : areAllDocumentsUploaded r.docs = true) :
    (submitRequest now true r).2.reviewStatus = ReviewStatus.PENDING ∧
    (submitRequest now true r).2.rejectedDocumentTypes = r.rejectedDocumentTypes ∧
    (∀ comment actorId slots, r.status = RequestStatus.SUBMITTED →
      (reviewRequest ReviewDecision.APPROVE comment actorId slots now true r).2.rejectedDocumentTypes
        = []) := by
  have hs : (submitRequest now true r).2 =
      { r with
        status := RequestStatus.SUBMITTED
        completionPercent := 100
        reviewStatus := ReviewStatus.PENDING
        updatedAt := now } := by
    unfold submitRequest
    rw [if_neg h1, if_neg h2, if_neg h3, if_neg (not_not_intro h4)]
    rfl
  refine ⟨by rw [hs], by rw [hs], ?_⟩
  intro comment actorId slots hsub
  unfold reviewRequest
  rw [if_neg (not_not_intro hsub)]
  by_cases hc : comment = ""
  · simp [hc]
  · simp [hc]

/-- C2 witness: the concrete resubmission keeps its rejected set. -/
theorem rejected_slots_lifecycle_witness :
    (submitRequest 2000 true c2Rejected).2.reviewStatus = ReviewStatus.PENDING ∧
    (submitRequest 2000 true c2Rejected).2.rejectedDocumentTypes
      = c2Rejected.rejectedDocumentTypes ∧
    (∀ comment actorId slots, c2Rejected.status = RequestStatus.SUBMITTED →
      (reviewRequest ReviewDecision.APPROVE comment actorId slots 2000 true
          c2Rejected).2.rejectedDocumentTypes = []) :=
  rejected_slots_lifecycle 2000 c2Rejected (by decide) (by decide) (by decide) (by decide)

/-- The code's absolute-value age test agrees with the signed SLA condition
whenever the creation time is not in the future. -/
theorem sla_ms_iff (a now : Int) (h : a ≤ now) :
    slaMs ≤ msBetween a now ↔ (144 * 3600000 : Int) ≤ now - a := by
  unfold slaMs msBetween
  omega

/-- One expiry step, written with the spec-side signed condition. -/
theorem expire_step_eq (now : Int) (r : Request) (h : r.createdAt ≤ now) :
    expireStep now r =
      if r.status ≠ RequestStatus.COMPLETED ∧ r.status ≠ RequestStatus.EXPIRED ∧
          (144 * 3600000 : Int) ≤ now - r.createdAt then
        { r with status := RequestStatus.EXPIRED, expiredAt := some now, updatedAt := now }
      else r := by
  have hiff := sla_ms_iff r.createdAt now h
  unfold expireStep
  by_cases hC : r.status = RequestStatus.COMPLETED
  · rw [if_pos hC, if_neg (fun hx => hx.1 hC)]
  · by_cases hE : r.status = RequestStatus.EXPIRED
    · rw [if_neg hC, if_pos hE, if_neg (fun hx => hx.2.1 hE)]
    · by_cases hT : slaMs ≤ msBetween r.createdAt now
      · rw [if_neg hC, if_neg hE, if_pos hT, if_pos ⟨hC, hE, hiff.mp hT⟩]
      · rw [if_neg hC, if_neg hE, if_neg hT, if_neg (fun hx => hT (hiff.mpr hx.2.2))]

/-- Applying the expiry step twice with the same clock is the same as
applying it once (already-EXPIRED cases are skipped). -/
theorem expire_step_idem (now : Int) (r : Request) :
    expireStep now (expireStep now r) = expireStep now r := by
  by_cases hC : r.status = RequestStatus.COMPLETED
  · have h1 : expireStep now r = r := by
      unfold expireStep
      rw [if_pos hC]
    rw [h1, h1]
  · by_cases hE : r.status = RequestStatus.EXPIRED
    · have h1 : expireStep now r = r := by
        unfold expireStep
        rw [if_neg hC, if_pos hE]
      rw [h1, h1]
    · by_cases hT : slaMs ≤ msBetween r.createdAt now
      · have h1 : expireStep now r =
            { r with
              status := RequestStatus.EXPIRED
              expiredAt := some now
              updatedAt := now } := by
          unfold expireStep
          rw [if_neg hC, if_neg hE, if_pos hT]
        rw [h1]
        rfl
      · have h1 : expireStep now r = r := by
          unfold expireStep
          rw [if_neg hC, if_neg hE, if_neg hT]
        rw [h1, h1]

/-- C4: one run of the expiry pass expires exactly the cases that are
neither COMPLETED nor already EXPIRED and whose age now - createdAt is at
least 144 hours, writing expiredAt = now; everything else is untouched,
and re-running the pass with the same clock changes nothing. -/
theorem expiry_pass_spec (now : Int) (rs : List Request)
    (h : ∀ r ∈ rs, r.createdAt ≤ now) :
    processExpiry now rs = rs.map (fun r =>
      if r.status ≠ RequestStatus.COMPLETED ∧ r.status ≠ RequestStatus.EXPIRED ∧
          (144 * 3600000 : Int) ≤ now - r.createdAt then
        { r with status := RequestStatus.EXPIRED, expiredAt := some now, updatedAt := now }
      else r) ∧
    processExpiry now (processExpiry now rs) = processExpiry now rs := by
  constructor
  · unfold processExpiry
    exact List.map_congr_left (fun r hr => expire_step_eq now r (h r hr))
  · unfold processExpiry
    rw [List.map_map]
    exact List.map_congr_left (fun r _ => expire_step_idem now r)

/-- An untouched request created at time 0. -/
def c4Old : Request := baseRequest

/-- A request created one second inside the SLA window. -/
def c4Fresh : Request := { baseRequest with createdAt := 1000 }

/-- An old COMPLETED request. -/
def c4Done : Request :=
  { baseRequest with status := RequestStatus.COMPLETED, createdAt := -999999999 }

/-- C4 witness: with the clock exactly 144 hours after time 0, the case
created at 0 is expired, the case created at 144h minus one second is left
unchanged, an ancient COMPLETED case is left unchanged, and the pass is
idempotent on this store. -/
theorem expiry_pass_spec_witness :
    (processExpiry 518400000 [c4Old, c4Fresh, c4Done] =
      [c4Old, c4Fresh, c4Done].map (fun r =>
        if r.status ≠ RequestStatus.COMPLETED ∧ r.status ≠ RequestStatus.EXPIRED ∧
            (144 * 3600000 : Int) ≤ 518400000 - r.createdAt then
          { r with
            status := RequestStatus.EXPIRED
            expiredAt := some 518400000
            updatedAt := 518400000 }
        else r) ∧
      processExpiry 518400000 (processExpiry 518400000 [c4Old, c4Fresh, c4Done]) =
        processExpiry 518400000 [c4Old, c4Fresh, c4Done]) ∧
    (processExpiry 518400000 [c4Old, c4Fresh, c4Done]).map (fun r => r.status) =
      [RequestStatus.EXPIRED, RequestStatus.OPEN, RequestStatus.COMPLETED] :=
  ⟨expiry_pass_spec 518400000 [c4Old, c4Fresh, c4Done] (by decide), by decide⟩

/-- The statuses eligible for the reminder sweep. -/
def eligibleStatus (r : Request) : Prop :=
  r.status = RequestStatus.OPEN ∨ r.status = RequestStatus.IN_PROGRESS ∨
    r.status = RequestStatus.SUBMITTED

instance (r : Request) : Decidable (eligibleStatus r) := by
  unfold eligibleStatus
  infer_instance

/-- The absolute-value 24-hour test agrees with the signed condition for a
past creation time. -/
theorem first_ms_iff (a now : Int) (h : a ≤ now) :
    firstReminderMs ≤ msBetween a now ↔ (24 * 3600000 : Int) ≤ now - a := by
  unfold firstReminderMs msBetween
  omega

/-- The absolute-value 48-hour test agrees with the signed condition for a
past acknowledgement time. -/
theorem second_ms_iff (a now : Int) (h : a ≤ now) :
    secondReminderMs ≤ msBetween a now ↔ (48 * 3600000 : Int) ≤ now - a := by
  unfold secondReminderMs msBetween
  omega

/-- The reminder step skips every case whose status is not eligible. -/
theorem reminder_step_skip (now : Int) (r : Request) (h : ¬ eligibleStatus r) :
    reminderStep now r = r := by
  have h' : ¬ (r.status = RequestStatus.OPEN ∨ r.status = RequestStatus.IN_PROGRESS ∨
      r.status = RequestStatus.SUBMITTED) := h
  unfold reminderStep
  by_cases hCE : r.status = RequestStatus.COMPLETED ∨ r.status = RequestStatus.EXPIRED
  · rw [if_pos hCE]
  · rw [if_neg hCE, if_pos h']

/-- The reminder step on an eligible level-0 case. -/
theorem reminder_step_level0 (now : Int) (r : Request) (hst : eligibleStatus r)
    (h0 : r.needsReminderLevel = 0) :
    reminderStep now r =
      if firstReminderMs ≤ msBetween r.createdAt now then
        { r with needsReminderLevel := 1, updatedAt := now }
      else r := by
  have hst' : r.status = RequestStatus.OPEN ∨ r.status = RequestStatus.IN_PROGRESS ∨
      r.status = RequestStatus.SUBMITTED := hst
  have hCE : ¬ (r.status = RequestStatus.COMPLETED ∨ r.status = RequestStatus.EXPIRED) := by
    rcases hst' with h | h | h <;> simp [h]
  unfold reminderStep
  rw [if_neg hCE, if_neg (not_not_intro hst'), if_pos h0]

/-- The reminder step on an eligible level-1 case with a recorded
acknowledgement time. -/
theorem reminder_step_level1_some (now t : Int) (r : Request) (hst : eligibleStatus r)
    (h1 : r.needsReminderLevel = 1) (hlat : r.lastReminderAt = some t) :
    reminderStep now r =
      if secondReminderMs ≤ msBetween t now then
        { r with needsReminderLevel := 2, updatedAt := now }
      else r := by
  have hst' : r.status = RequestStatus.OPEN ∨ r.status = RequestStatus.IN_PROGRESS ∨
      r.status = RequestStatus.SUBMITTED := hst
  have hCE : ¬ (r.status = RequestStatus.COMPLETED ∨ r.status = RequestStatus.EXPIRED) := by
    rcases hst' with h | h | h <;> simp [h]
  unfold reminderStep
  rw [if_neg hCE, if_neg (not_not_intro hst'), if_neg (by omega), if_pos h1]
  simp only [hlat]

/-- The reminder step on an eligible level-1 case that was never
acknowledged. -/
theorem reminder_step_level1_none (now : Int) (r : Request) (hst : eligibleStatus r)
    (h1 : r.needsReminderLevel = 1) (hlat : r.lastReminderAt = none) :
    reminderStep now r = r := by
  have hst' : r.status = RequestStatus.OPEN ∨ r.status = RequestStatus.IN_PROGRESS ∨
      r.status = RequestStatus.SUBMITTED := hst
  have hCE : ¬ (r.status = RequestStatus.COMPLETED ∨ r.status = RequestStatus.EXPIRED) := by
    rcases hst' with h | h | h <;> simp [h]
  unfold reminderStep
  rw [if_neg hCE, if_neg (not_not_intro hst'), if_neg (by omega), if_pos h1]
  simp only [hlat]

/-- A level-1 case whose acknowledgement (if any) is younger than 48 hours
is left unchanged. -/
theorem reminder_step_level1_stable (now : Int) (s : Request) (hst : eligibleStatus s)
    (h1 : s.needsReminderLevel = 1)
    (hsafe : ∀ t, s.lastReminderAt = some t → ¬ secondReminderMs ≤ msBetween t now) :
    reminderStep now s = s := by
  cases hlat : s.lastReminderAt with
  | none => exact reminder_step_level1_none now s hst h1 hlat
  | some t => rw [reminder_step_level1_some now t s hst h1 hlat, if_neg (hsafe t hlat)]

/-- The reminder step leaves any level other than 0 and 1 unchanged. -/
theorem reminder_step_other (now : Int) (r : Request)
    (h0 : r.needsReminderLevel ≠ 0) (h1 : r.needsReminderLevel ≠ 1) :
    reminderStep now r = r := by
  unfold reminderStep
  by_cases hCE : r.status = RequestStatus.COMPLETED ∨ r.status = RequestStatus.EXPIRED
  · rw [if_pos hCE]
  · rw [if_neg hCE]
    by_cases hst : r.status = RequestStatus.OPEN ∨ r.status = RequestStatus.IN_PROGRESS ∨
        r.status = RequestStatus.SUBMITTED
    · rw [if_neg (not_not_intro hst), if_neg h0, if_neg h1]
    · rw [if_pos hst]

/-- A case that satisfies both escalation conditions at the same clock:
the only situation in which a second run of the reminder pass with no
elapsed time changes state again (first run 0 to 1, second run 1 to 2). -/
def doubleFire (now : Int) (r : Request) : Prop :=
  eligibleStatus r ∧ r.needsReminderLevel = 0 ∧
    firstReminderMs ≤ msBetween r.createdAt now ∧
    ∃ t, r.lastReminderAt = some t ∧ secondReminderMs ≤ msBetween t now

/-- The reminder step is idempotent at fixed clock on any case that does
not satisfy both escalation conditions at once. -/
theorem reminder_step_idem (now : Int) (r : Request) (hnd : ¬ doubleFire now r) :
    reminderStep now (reminderStep now r) = reminderStep now r := by
  by_cases hst : eligibleStatus r
  · rcases Nat.lt_or_ge r.needsReminderLevel 2 with hlt | hge
    · rcases (by omega : r.needsReminderLevel = 0 ∨ r.needsReminderLevel = 1) with h0 | h1
      · by_cases hT : firstReminderMs ≤ msBetween r.createdAt now
        · have hstep : reminderStep now r =
              { r with needsReminderLevel := 1, updatedAt := now } := by
            rw [reminder_step_level0 now r hst h0, if_pos hT]
          rw [hstep]
          refine reminder_step_level1_stable now _ (by exact hst) (by exact rfl) ?_
          intro t ht hx
          exact hnd ⟨hst, h0, hT, t, (by exact ht), hx⟩
        · have hstep : reminderStep now r = r := by
            rw [reminder_step_level0 now r hst h0, if_neg hT]
          rw [hstep, hstep]
      · cases hlat : r.lastReminderAt with
        | none =>
            have he : reminderStep now r = r := reminder_step_level1_none now r hst h1 hlat
            rw [he, he]
        | some t =>
            by_cases hT : secondReminderMs ≤ msBetween t now
            · have he : reminderStep now r =
                  { r with needsReminderLevel := 2, updatedAt := now } := by
                rw [reminder_step_level1_some now t r hst h1 hlat, if_pos hT]
              rw [he]
              exact reminder_step_other now _ (by simp) (by simp)
            · have he : reminderStep now r = r := by
                rw [reminder_step_level1_some now t r hst h1 hlat, if_neg hT]
              rw [he, he]
    · have he : reminderStep now r = r :=
        reminder_step_other now r (by omega) (by omega)
      rw [he, he]
  · have he : reminderStep now r = r := reminder_step_skip now r hst
    rw [he, he]

/-- C5 amended: over eligible cases the per-case escalations are exactly
as claimed (0 to 1 at 24h since creation, 1 to 2 at 48h since the recorded
acknowledgement, everything else untouched), but running the pass twice
with no elapsed time is only guaranteed to change nothing when no case
satisfies both escalation conditions at once; such a case is raised to
level 1 by the first run and to level 2 by the immediate second run. -/
theorem reminder_pass_spec (now : Int) (r : Request)
    (hc : r.createdAt ≤ now)
    (hl : ∀ t, r.lastReminderAt = some t → t ≤ now) :
    (¬ eligibleStatus r → reminderStep now r = r) ∧
    (eligibleStatus r → r.needsReminderLevel = 0 →
      reminderStep now r =
        if (24 * 3600000 : Int) ≤ now - r.createdAt then
          { r with needsReminderLevel := 1, updatedAt := now }
        else r) ∧
    (eligibleStatus r → r.needsReminderLevel = 1 → ∀ t, r.lastReminderAt = some t →
      reminderStep now r =
        if (48 * 3600000 : Int) ≤ now - t then
          { r with needsReminderLevel := 2, updatedAt := now }
        else r) ∧
    (eligibleStatus r → r.needsReminderLevel = 1 → r.lastReminderAt = none →
      reminderStep now r = r) ∧
    (r.needsReminderLevel ≠ 0 → r.needsReminderLevel ≠ 1 → reminderStep now r = r) ∧
    (∀ rs : List Request, (∀ x ∈ rs, ¬ doubleFire now x) →
      processReminders now (processReminders now rs) = processReminders now rs) := by
  refine ⟨reminder_step_skip now r, ?_, ?_, reminder_step_level1_none now r,
    reminder_step_other now r, ?_⟩
  · intro hst h0
    rw [reminder_step_level0 now r hst h0]
    by_cases hT : firstReminderMs ≤ msBetween r.createdAt now
    · rw [if_pos hT, if_pos ((first_ms_iff r.createdAt now hc).mp hT)]
    · rw [if_neg hT, if_neg (fun hx => hT ((first_ms_iff r.createdAt now hc).mpr hx))]
  · intro hst h1 t hlat
    rw [reminder_step_level1_some now t r hst h1 hlat]
    have ht : t ≤ now := hl t hlat
    by_cases hT : secondReminderMs ≤ msBetween t now
    · rw [if_pos hT, if_pos ((second_ms_iff t now ht).mp hT)]
    · rw [if_neg hT, if_neg (fun hx => hT ((second_ms_iff t now ht).mpr hx))]
  · intro rs hnd
    unfold processReminders
    rw [List.map_map]
    exact List.map_congr_left (fun x hx => reminder_step_idem now x (hnd x hx))

/-- A level-0 OPEN case that satisfies both escalation thresholds at once:
created 50 hours before the clock, acknowledged 49 hours before it. -/
def c5Bad : Request :=
  { baseRequest with createdAt := 0, lastReminderAt := some 3600000 }

/-- C5 counterexample: running the reminder pass twice in succession with
no elapsed time does not produce identical state the second time: the
first run raises c5Bad to level 1 and the immediate second run raises it
to level 2. -/
theorem reminder_pass_double_run_cex :
    ((processReminders 180000000 [c5Bad]).map (fun r => r.needsReminderLevel) = [1]) ∧
    ((processReminders 180000000 (processReminders 180000000 [c5Bad])).map
        (fun r => r.needsReminderLevel) = [2]) ∧
    processReminders 180000000 (processReminders 180000000 [c5Bad]) ≠
      processReminders 180000000 [c5Bad] := by
  refine ⟨by decide, by decide, fun hEq => ?_⟩
  have h1 : (processReminders 180000000 [c5Bad]).map (fun r => r.needsReminderLevel)
      = [1] := by decide
  have h2 : (processReminders 180000000 (processReminders 180000000 [c5Bad])).map
      (fun r => r.needsReminderLevel) = [2] := by decide
  rw [hEq, h1] at h2
  exact absurd h2 (by decide)

/-- A level-0 OPEN case created 25 hours before the clock, acknowledged
almost immediately after creation. -/
def c5Tame : Request := { baseRequest with createdAt := 0, lastReminderAt := some 5 }

/-- C5 witness: the amended theorem applied to the tame concrete case at
clock 25h. -/
theorem reminder_pass_spec_witness :
    (¬ eligibleStatus c5Tame → reminderStep 90000000 c5Tame = c5Tame) ∧
    (eligibleStatus c5Tame → c5Tame.needsReminderLevel = 0 →
      reminderStep 90000000 c5Tame =
        if (24 * 3600000 : Int) ≤ 90000000 - c5Tame.createdAt then
          { c5Tame with needsReminderLevel := 1, updatedAt := 90000000 }
        else c5Tame) ∧
    (eligibleStatus c5Tame → c5Tame.needsReminderLevel = 1 → ∀ t,
      c5Tame.lastReminderAt = some t →
      reminderStep 90000000 c5Tame =
        if (48 * 3600000 : Int) ≤ 90000000 - t then
          { c5Tame with needsReminderLevel := 2, updatedAt := 90000000 }
        else c5Tame) ∧
    (eligibleStatus c5Tame → c5Tame.needsReminderLevel = 1 → c5Tame.lastReminderAt = none →
      reminderStep 90000000 c5Tame = c5Tame) ∧
    (c5Tame.needsReminderLevel ≠ 0 → c5Tame.needsReminderLevel ≠ 1 →
      reminderStep 90000000 c5Tame = c5Tame) ∧
    (∀ rs : List Request, (∀ x ∈ rs, ¬ doubleFire 90000000 x) →
      processReminders 90000000 (processReminders 90000000 rs) =
        processReminders 90000000 rs) :=
  reminder_pass_spec 90000000 c5Tame (by decide)
    (fun t ht => by
      have h5 : (5 : Int) = t := Option.some.inj ht
      omega)

/-- C6 counterexample: in updateRequest the STATUS_CHANGED audit log is
written before the state write, so an audit-sink failure both fails the
operation and prevents the mutation from committing: the state is returned
unchanged, contradicting the claim that the mutation still commits. -/
theorem audit_failure_blocks_update_cex :
    opOk (updateRequest (some RequestStatus.IN_PROGRESS) none 7 false baseRequest) = false ∧
    (updateRequest (some RequestStatus.IN_PROGRESS) none 7 false baseRequest).2
      = baseRequest := by
  exact ⟨by decide, rfl⟩

/-- C6 amended: an audit-sink failure always propagates and fails the
triggering operation.  In uploadDocument, submitRequest,
markReminderConfirmed, reopenRequest and reviewRequest the audit write
happens after the state write, so the mutation still commits (the final
state equals the state of a successful run) even though the operation
reports failure; in updateRequest the audit write precedes the state
write, so a sink failure leaves the state untouched. -/
theorem audit_ordering (now : Int) (r : Request) :
    (r.status ≠ RequestStatus.EXPIRED → r.status ≠ RequestStatus.COMPLETED →
      r.reviewStatus ≠ ReviewStatus.APPROVED → ∀ docType,
      (uploadDocument now docType false r).2 = (uploadDocument now docType true r).2 ∧
      opOk (uploadDocument now docType false r) = false) ∧
    (r.status ≠ RequestStatus.EXPIRED → r.status ≠ RequestStatus.COMPLETED →
      r.reviewStatus ≠ ReviewStatus.APPROVED → areAllDocumentsUploaded r.docs = true →
      (submitRequest now false r).2 = (submitRequest now true r).2 ∧
      opOk (submitRequest now false r) = false) ∧
    (r.status ≠ RequestStatus.EXPIRED →
      (markReminderConfirmed now false r).2 = (markReminderConfirmed now true r).2 ∧
      opOk (markReminderConfirmed now false r) = false) ∧
    (r.status = RequestStatus.EXPIRED →
      (reopenRequest now false r).2 = (reopenRequest now true r).2 ∧
      opOk (reopenRequest now false r) = false) ∧
    (r.status = RequestStatus.SUBMITTED → ∀ comment actorId slots,
      (reviewRequest ReviewDecision.APPROVE comment actorId slots now false r).2 =
        (reviewRequest ReviewDecision.APPROVE comment actorId slots now true r).2 ∧
      opOk (reviewRequest ReviewDecision.APPROVE comment actorId slots now false r) = false) ∧
    (∀ target, target ≠ r.status → ¬ (r.status = RequestStatus.EXPIRED ∧
        target ≠ RequestStatus.OPEN) →
      updateRequest (some target) none now false r =
        (Except.error "audit sink unavailable", r)) := by
  refine ⟨?_, ?_, ?_, ?_, ?_, ?_⟩
  · intro h1 h2 h3 docType
    unfold uploadDocument
    simp only [if_neg h1, if_neg h2, if_neg h3]
    exact ⟨rfl, rfl⟩
  · intro h1 h2 h3 h4
    unfold submitRequest
    simp only [if_neg h1, if_neg h2, if_neg h3, if_neg (not_not_intro h4)]
    exact ⟨rfl, rfl⟩
  · intro h1
    unfold markReminderConfirmed
    simp only [if_neg h1]
    exact ⟨rfl, rfl⟩
  · intro h1
    unfold reopenRequest
    simp only [if_neg (not_not_intro h1)]
    exact ⟨rfl, rfl⟩
  · intro hs comment actorId slots
    unfold reviewRequest
    simp only [if_neg (not_not_intro hs)]
    exact ⟨rfl, rfl⟩
  · intro target hne hguard
    simp only [updateRequest]
    rw [if_pos hne, if_neg hguard]
    rfl

/-- C6 witness: the amended theorem on a fresh OPEN request: the reminder
confirmation commits despite the sink failure, while the status edit is
blocked entirely by it. -/
theorem audit_ordering_witness :
    ((markReminderConfirmed 7 false baseRequest).2
        = (markReminderConfirmed 7 true baseRequest).2 ∧
      opOk (markReminderConfirmed 7 false baseRequest) = false) ∧
    updateRequest (some RequestStatus.IN_PROGRESS) none 7 false baseRequest =
      (Except.error "audit sink unavailable", baseRequest) :=
  ⟨(audit_ordering 7 baseRequest).2.2.1 (by decide),
    (audit_ordering 7 baseRequest).2.2.2.2.2 RequestStatus.IN_PROGRESS
      (by decide) (by decide)⟩

end CRT
